import Mathlib

/-!
Verification of the sports-stats-dashboard data layer.

Shallow embedding of the JavaScript modules:
 - `js/utils.js`   : calculateWinPercentage, sortByProperty, getRandomInt, getRandomElement
 - `js/api.js`     : rosters, generateMockTeams, generateMockGames, fetchStandings,
                     fetchRecentGames, fetchDashboardStats, fetchAllData
 - `js/config-public.js` : API_CONFIG (public variant, no API key)
 - `js/main.js`    : loadData and the application state

Modelling conventions:
 - `Math.random()` draws are an explicit stream `RandStream : Nat → Nat`; every call
   site consumes the stream at an explicit position, mirroring evaluation order.
 - Promise outcomes are `Except String _`; a rejected promise is `.error msg`.
 - JS numbers on the claim-relevant paths are integers (scores, wins, losses); the
   one fractional quantity, the win percentage, is produced by
   `(wins/total).toFixed(3)` followed by `parseFloat`, so it is stored exactly as an
   integer number of thousandths (`winPctMilli`).
 - `new Date()` wall-clock values are represented abstractly (`GameDate`).
 - The do-while retry loop of `generateMockGames` is given explicit fuel; a run that
   exhausts its fuel is `none`, standing for the JS loop not having finished yet.
-/

namespace Dashboard

/-- A stream of raw random draws; position n is the n-th `Math.random()`-derived draw. -/
def RandStream : Type := Nat → Nat

/-- utils.js getRandomInt: inclusive-bounds random integer.  A raw draw is reduced
modulo the width of the range, so every value of `lo..hi` is reachable and no other. -/
def getRandomInt (σ : RandStream) (pos lo hi : Nat) : Nat :=
  lo + σ pos % (hi - lo + 1)

/-- utils.js getRandomElement: uniform pick from a list; `none` models the
`undefined` produced by indexing an empty array. -/
def getRandomElement {α : Type} (arr : List α) (r : Nat) : Option α :=
  arr[r % arr.length]?

/-- Fueled floor-log2; structural recursion so that both proofs and kernel
evaluation can unfold it (fuel n suffices for input n). -/
def log2fuel : Nat → Nat → Nat
  | 0, _ => 0
  | fuel + 1, n => if n ≤ 1 then 0 else log2fuel fuel (n / 2) + 1

/-- Floor of log2 n, for n ≥ 1. -/
def natLog2 (n : Nat) : Nat := log2fuel n n

/-- Round-to-nearest, ties-to-even, of the rational num/den: the rounding that
IEEE-754 binary64 arithmetic applies to the significand of a quotient. -/
def rne (num den : Nat) : Nat :=
  if 2 * (num % den) < den then num / den
  else if den < 2 * (num % den) then num / den + 1
  else if (num / den) % 2 = 0 then num / den else num / den + 1

/-- The binary64 (JS number) quotient w / t, for 1 ≤ w ≤ 2^52 and t ≤ 2^53: the
pair (m, f) of significand and binary scale of the double nearest to w/t, whose
exact value is m / 2^f.  The scale puts (w/t)·2^f inside [2^52, 2^53), the
53-bit significand window of a normal double, and the significand is rounded to
nearest, ties to even. -/
def flDiv (w t : Nat) : Nat × Nat :=
  let f := 152 - natLog2 (w * 2 ^ 100 / t)
  (rne (w * 2 ^ f) t, f)

/-- JS `(w/t).toFixed(3)` as an integer count of thousandths: ECMA-262 toFixed
picks the n minimising the distance of n/1000 to the DOUBLE value m/2^f (the
larger n on a tie), i.e. the round-half-up of 1000·m/2^f; w = 0 divides to the
double 0. -/
def jsDivMilli (w t : Nat) : Nat :=
  if w = 0 then 0
  else (2000 * (flDiv w t).1 + 2 ^ (flDiv w t).2) / 2 ^ ((flDiv w t).2 + 1)

/-- Left-pad the fractional part of a thousandths value to exactly three digits. -/
def padMilli (n : Nat) : String :=
  (if n < 10 then "00" else if n < 100 then "0" else "") ++ toString n

/-- Render an integer number of thousandths the way `toFixed(3)` prints it. -/
def fmt3 (milli : Nat) : String :=
  toString (milli / 1000) ++ "." ++ padMilli (milli % 1000)

/-- utils.js calculateWinPercentage: `(wins/total).toFixed(3)` on the double
quotient (so e.g. 39 and 41 give "0.487": the double below the exact tie 0.4875
rounds down), with the explicit "0.000" guard at zero total. -/
def calculateWinPercentage (wins losses : Nat) : String :=
  let total := wins + losses
  if total = 0 then "0.000" else fmt3 (jsDivMilli wins total)

/-- utils.js sortByProperty: copies the array and sorts with the comparator
`aVal > bVal ? 1 : -1` (ascending) or `aVal < bVal ? 1 : -1` (descending);
`a` may precede `b` exactly when the comparator is not positive.  The property
values compared in the dashboard are JS numbers; any linear order covers them. -/
def sortByProperty {α β : Type} [LinearOrder β] (array : List α) (property : α → β)
    (ascending : Bool) : List α :=
  array.mergeSort (fun a b =>
    if ascending then decide (property a ≤ property b)
    else decide (property b ≤ property a))

/-- JS `<` on strings: lexicographic by code unit (all strings in this code base
are ASCII, where code-unit order and code-point order agree). -/
def charListLt : List Char → List Char → Bool
  | _, [] => false
  | [], _ :: _ => true
  | a :: as, b :: bs => if a < b then true else if b < a then false else charListLt as bs

/-- JS string comparison lifted to `String`. -/
def strLt (a b : String) : Bool := charListLt a.data b.data

/-- JS `toLowerCase` on the ASCII range. -/
def lowerChar (c : Char) : Char :=
  if 65 ≤ c.toNat ∧ c.toNat ≤ 90 then Char.ofNat (c.toNat + 32) else c

/-- JS `String.prototype.toLowerCase` (ASCII). -/
def jsToLower (s : String) : String := ⟨s.data.map lowerChar⟩

/-- JS `toUpperCase` on the ASCII range. -/
def upperChar (c : Char) : Char :=
  if 97 ≤ c.toNat ∧ c.toNat ≤ 122 then Char.ofNat (c.toNat - 32) else c

/-- JS `String.prototype.toUpperCase` (ASCII). -/
def jsToUpper (s : String) : String := ⟨s.data.map upperChar⟩

/-- api.js NBA roster. -/
def NBA_TEAMS : List String :=
  ["Lakers", "Celtics", "Warriors", "Nets", "Bucks", "Heat",
   "Suns", "Nuggets", "Mavericks", "Clippers", "76ers", "Raptors"]

/-- api.js NFL roster. -/
def NFL_TEAMS : List String :=
  ["Chiefs", "Bills", "49ers", "Eagles", "Cowboys", "Bengals",
   "Patriots", "Packers", "Ravens", "Steelers", "Rams", "Seahawks"]

/-- api.js MLB roster. -/
def MLB_TEAMS : List String :=
  ["Yankees", "Dodgers", "Red Sox", "Astros", "Braves", "Cubs",
   "Cardinals", "Giants", "Mets", "Phillies", "Rays", "Blue Jays"]

/-- api.js EPL roster. -/
def EPL_TEAMS : List String :=
  ["Man City", "Arsenal", "Liverpool", "Chelsea", "Man United", "Tottenham",
   "Newcastle", "Brighton", "Aston Villa", "West Ham", "Leicester", "Everton"]

/-- config-public.js / config.js: the configuration fields the data layer reads. -/
structure MSFConfig where
  apiKey : Option String
  baseUrl : String
  season : String
  leagues : List (String × String)
deriving Repr, DecidableEq

/-- config-public.js API_CONFIG.MYSPORTSFEEDS: no API key, mock data only. -/
def API_CONFIG_PUBLIC : MSFConfig :=
  { apiKey := none
    baseUrl := "https://api.mysportsfeeds.com/v2.1/pull"
    season := "2024-2025-regular"
    leagues := [("NBA", "nba"), ("NFL", "nfl"), ("MLB", "mlb"), ("NHL", "nhl")] }

/-- api.js isAPIConfigured: the key must be truthy (non-null, non-empty) and not one
of the two placeholder literals. -/
def isAPIConfigured (cfg : MSFConfig) : Bool :=
  match cfg.apiKey with
  | none => false
  | some k =>
      !(k == "" || k == "YOUR_API_KEY_HERE" || k == "YOUR_MYSPORTSFEEDS_API_KEY_HERE")

/-- The league-to-roster switch shared by the mock paths of fetchStandings and
fetchRecentGames: switch on the lower-cased league with default NBA_TEAMS. -/
def selectTeams (league : String) : List String :=
  let l := jsToLower league
  if l = "nba" then NBA_TEAMS
  else if l = "nfl" then NFL_TEAMS
  else if l = "mlb" then MLB_TEAMS
  else if l = "epl" then EPL_TEAMS
  else NBA_TEAMS

/-- One row of the dashboard's team-standing data model.  `winPctMilli` is the win
percentage in thousandths (the exact value of `parseFloat((w/t).toFixed(3))`). -/
structure TeamStanding where
  id : Nat
  name : String
  wins : Nat
  losses : Nat
  winPctMilli : Nat
  streak : String
  points : Nat
  gamesPlayed : Nat
deriving Repr, DecidableEq

/-- api.js generateMockTeams: one standing per roster name, five random draws per
team in source order (wins, losses, streak length, streak direction, points). -/
def generateMockTeams (σ : RandStream) : List String → Nat → Nat → List TeamStanding
  | [], _, _ => []
  | name :: rest, index, pos =>
      let wins := getRandomInt σ pos 5 45
      let losses := getRandomInt σ (pos + 1) 5 45
      let total := wins + losses
      let winPct := jsDivMilli wins total
      let streakLen := getRandomInt σ (pos + 2) 1 8
      let streakType := if σ (pos + 3) % 2 = 0 then "W" else "L"
      { id := index + 1
        name := name
        wins := wins
        losses := losses
        winPctMilli := winPct
        streak := streakType ++ toString streakLen
        points := getRandomInt σ (pos + 4) 80 120
        gamesPlayed := total } :: generateMockTeams σ rest (index + 1) (pos + 5)

/-- One entry of a (well-formed) MySportsFeeds standings response, restricted to the
fields the transform in fetchStandings reads.  An empty string models a missing or
falsy string field; 0 models a missing or falsy numeric field (JS `||` semantics). -/
structure RealStanding where
  teamId : Nat
  abbreviation : String
  city : String
  wins : Nat
  losses : Nat
  streak : String
  pointsFor : Nat
  gamesPlayed : Nat
deriving Repr, DecidableEq

/-- A parsed standings response body. -/
structure RealStandingsResponse where
  standings : List RealStanding
deriving Repr, DecidableEq

/-- The per-entry transform inside fetchStandings.  `wins/(wins+losses)` with both
zero is `NaN`, which `parseFloat(...toFixed(3)) || 0` turns into 0.  A falsy
`pointsFor` falls back to a fresh random draw; a falsy `gamesPlayed` falls back to
`wins + losses`. -/
def transformStanding (σ : RandStream) (pos : Nat) (s : RealStanding) : TeamStanding :=
  { id := s.teamId
    name := if s.abbreviation = "" then s.city else s.abbreviation
    wins := s.wins
    losses := s.losses
    winPctMilli := if s.wins + s.losses = 0 then 0 else jsDivMilli s.wins (s.wins + s.losses)
    streak := if s.streak = "" then "N/A" else s.streak
    points := if s.pointsFor = 0 then getRandomInt σ pos 80 120 else s.pointsFor
    gamesPlayed := if s.gamesPlayed = 0 then s.wins + s.losses else s.gamesPlayed }

/-- `data.standings.map(...)` in source order, threading the random stream. -/
def transformStandings (σ : RandStream) : List RealStanding → Nat → List TeamStanding
  | [], _ => []
  | s :: rest, pos => transformStanding σ pos s :: transformStandings σ rest (pos + 1)

/-- The labeled result record fetchStandings resolves with (timestamp omitted:
wall clock). -/
structure StandingsResult where
  success : Bool
  data : List TeamStanding
  league : String
  source : String
deriving Repr, DecidableEq

/-- The mock-path result of fetchStandings. -/
def mockStandingsResult (σ : RandStream) (league : String) : StandingsResult :=
  { success := true
    data := generateMockTeams σ (selectTeams league) 0 0
    league := jsToUpper league
    source := "Mock Data" }

/-- api.js fetchStandings.  `real` is the settled outcome of
`fetchFromMySportsFeeds('standings', league)`: `.error` covers a network error, a
non-2xx status, and a malformed (unparseable) body, all of which that helper turns
into a thrown error.  When the API is configured the inner try awaits the real
fetch; its catch falls through to the mock path.  The mock path never throws, so
the outer catch never fires and the function always resolves. -/
def fetchStandings (cfg : MSFConfig) (σ : RandStream)
    (real : Except String RealStandingsResponse) (league : String) :
    Except String StandingsResult :=
  if isAPIConfigured cfg then
    match real with
    | .ok d =>
        .ok { success := true
              data := transformStandings σ d.standings 0
              league := jsToUpper league
              source := "MySportsFeeds" }
    | .error _ => .ok (mockStandingsResult σ league)
  else
    .ok (mockStandingsResult σ league)

/-- A game's date: the mock path serializes wall-clock "now minus 0..7 days"; the
real path copies `schedule.startTime` verbatim. -/
inductive GameDate where
  | daysAgo (n : Nat)
  | startTime (s : String)
deriving Repr, DecidableEq

/-- One row of the dashboard's game data model. -/
structure Game where
  id : Nat
  homeTeam : String
  awayTeam : String
  homeScore : Nat
  awayScore : Nat
  date : GameDate
  status : String
  winner : String
deriving Repr, DecidableEq

/-- The canonical key of an unordered team pairing:
`[homeTeam, awayTeam].sort().join('-')` (the stable two-element sort swaps exactly
when the second string is lexicographically smaller). -/
def pairKey (a b : String) : String :=
  if strLt b a then b ++ "-" ++ a else a ++ "-" ++ b

/-- The do-while retry loop inside generateMockGames: draw a home team, then an
away team from the roster with the home team filtered out, and retry while the
sorted-pair key is already used.  Each attempt consumes two draws.  `fuel` bounds
the number of attempts; `none` models a run of the JS loop longer than the fuel. -/
def drawPair (σ : RandStream) (teams : List String) (used : List String) :
    Nat → Nat → Option (String × String × Nat)
  | 0, _ => none
  | fuel + 1, pos =>
      match getRandomElement teams (σ pos) with
      | none => none
      | some homeTeam =>
          match getRandomElement (teams.filter (fun t => t ≠ homeTeam)) (σ (pos + 1)) with
          | none => none
          | some awayTeam =>
              if pairKey homeTeam awayTeam ∈ used then
                drawPair σ teams used fuel (pos + 2)
              else
                some (homeTeam, awayTeam, pos + 2)

/-- The for-loop body of generateMockGames: after a fresh pair is found, three more
draws produce the scores and the date offset; the winner is
`homeScore > awayScore ? homeTeam : awayTeam`. -/
def genGamesGo (σ : RandStream) (teams : List String) (fuel : Nat) :
    Nat → Nat → Nat → List String → Option (List Game)
  | 0, _, _, _ => some []
  | remaining + 1, i, pos, used =>
      match drawPair σ teams used fuel pos with
      | none => none
      | some (homeTeam, awayTeam, pos') =>
          let homeScore := getRandomInt σ pos' 80 130
          let awayScore := getRandomInt σ (pos' + 1) 80 130
          let game : Game :=
            { id := i + 1
              homeTeam := homeTeam
              awayTeam := awayTeam
              homeScore := homeScore
              awayScore := awayScore
              date := .daysAgo (getRandomInt σ (pos' + 2) 0 7)
              status := "final"
              winner := if homeScore > awayScore then homeTeam else awayTeam }
          (genGamesGo σ teams fuel remaining (i + 1) (pos' + 3)
              (pairKey homeTeam awayTeam :: used)).map (game :: ·)

/-- api.js generateMockGames (count defaults to 6 at the call sites). -/
def generateMockGames (σ : RandStream) (teams : List String) (count fuel : Nat) :
    Option (List Game) :=
  genGamesGo σ teams fuel count 0 0 []

/-- One entry of a (well-formed) MySportsFeeds games response, restricted to the
fields the transform in fetchRecentGames reads; 0 models a missing score total. -/
structure RealGame where
  scheduleId : Nat
  homeAbbr : String
  homeCity : String
  awayAbbr : String
  awayCity : String
  homeScoreTotal : Nat
  awayScoreTotal : Nat
  startTime : String
  playedStatus : String
deriving Repr, DecidableEq

/-- A parsed games response body. -/
structure RealGamesResponse where
  games : List RealGame
deriving Repr, DecidableEq

/-- The per-entry transform inside fetchRecentGames; note the winner is picked from
the abbreviations without the city fallback used for the display names. -/
def transformGame (g : RealGame) : Game :=
  { id := g.scheduleId
    homeTeam := if g.homeAbbr = "" then g.homeCity else g.homeAbbr
    awayTeam := if g.awayAbbr = "" then g.awayCity else g.awayAbbr
    homeScore := g.homeScoreTotal
    awayScore := g.awayScoreTotal
    date := .startTime g.startTime
    status := if g.playedStatus = "COMPLETED" then "final" else "scheduled"
    winner := if g.homeScoreTotal > g.awayScoreTotal then g.homeAbbr else g.awayAbbr }

/-- The labeled result record fetchRecentGames resolves with. -/
structure GamesResult where
  success : Bool
  data : List Game
  league : String
  source : String
deriving Repr, DecidableEq

/-- api.js fetchRecentGames.  Same dual-path shape as fetchStandings; the outer
`Option` is `none` exactly when the mock generator's retry loop runs past its
fuel (the JS call would still be looping). -/
def fetchRecentGames (cfg : MSFConfig) (σ : RandStream)
    (real : Except String RealGamesResponse) (league : String) (fuel : Nat) :
    Option (Except String GamesResult) :=
  if isAPIConfigured cfg then
    match real with
    | .ok d =>
        some (.ok { success := true
                    data := (d.games.take 6).map transformGame
                    league := jsToUpper league
                    source := "MySportsFeeds" })
    | .error _ =>
        (generateMockGames σ (selectTeams league) 6 fuel).map (fun gs =>
          .ok { success := true, data := gs, league := jsToUpper league
                source := "Mock Data" })
  else
    (generateMockGames σ (selectTeams league) 6 fuel).map (fun gs =>
      .ok { success := true, data := gs, league := jsToUpper league
            source := "Mock Data" })

/-- The aggregate snapshot produced by fetchDashboardStats. -/
structure DashboardStats where
  totalTeams : Nat
  gamesToday : Nat
  topScorer : String
  avgScore : Nat
deriving Repr, DecidableEq

/-- The labeled result record fetchDashboardStats resolves with. -/
structure StatsResult where
  success : Bool
  data : DashboardStats
  league : String
deriving Repr, DecidableEq

/-- api.js fetchDashboardStats: always mock, never rejects. -/
def fetchDashboardStats (σ : RandStream) (league : String) : Except String StatsResult :=
  .ok { success := true
        data := { totalTeams := 12
                  gamesToday := getRandomInt σ 0 3 8
                  topScorer := (getRandomElement
                    ["LeBron James", "Stephen Curry", "Kevin Durant",
                     "Giannis Antetokounmpo"] (σ 1)).getD ""
                  avgScore := getRandomInt σ 2 105 115 }
        league := jsToUpper league }

/-- The combined record fetchAllData resolves with. -/
structure AllData where
  success : Bool
  standings : List TeamStanding
  games : List Game
  stats : DashboardStats
  league : String
deriving Repr, DecidableEq

/-- api.js fetchAllData: `Promise.all` over the three sub-fetches, parametrized by
their settled outcomes.  All fulfilled: resolve with the combined record; any
rejected: reject (the catch logs and rethrows). -/
def fetchAllData (league : String)
    (standings : Except String StandingsResult)
    (games : Except String GamesResult)
    (stats : Except String StatsResult) : Except String AllData :=
  match standings, games, stats with
  | .ok s, .ok g, .ok st =>
      .ok { success := true
            standings := s.data
            games := g.data
            stats := st.data
            league := jsToUpper league }
  | .error e, _, _ => .error e
  | .ok _, .error e, _ => .error e
  | .ok _, .ok _, .error e => .error e

/-- main.js application state plus the DOM flags loadData toggles.  The
auto-refresh timer handle is irrelevant to the claims and omitted. -/
structure AppState where
  currentLeague : String
  allData : Option AllData
  isLoading : Bool
  loadingShown : Bool
  errorShown : Bool
  errorMsg : String
deriving Repr, DecidableEq

/-- main.js loadData, first phase (up to the await): the early-return guard on
`state.isLoading`, then setting the flag, showLoading(), hideError().  The Bool
reports whether a fetch was dispatched. -/
def loadDataStart (s : AppState) : AppState × Bool :=
  if s.isLoading then (s, false)
  else ({ s with isLoading := true, loadingShown := true, errorShown := false }, true)

/-- main.js loadData, second phase (after fetchAllData settles): on success store
the dataset, update the UI and hide loading; on failure hide loading and show the
error; the finally block clears the loading flag in both cases. -/
def loadDataFinish (s : AppState) (result : Except String AllData) : AppState :=
  let s' :=
    match result with
    | .ok d => { s with allData := some d, loadingShown := false }
    | .error e =>
        { s with loadingShown := false, errorShown := true
                 errorMsg := "Failed to load data: " ++ e }
  { s' with isLoading := false }

/-- A fixed concrete draw sequence used to exhibit concrete runs. -/
def rs0 : RandStream := fun k => k

/-! Helper lemmas about the string comparison and the random helpers. -/

theorem charListLt_asymm : ∀ {x y : List Char},
    charListLt x y = true → charListLt y x = false := by
  intro x
  induction x with
  | nil =>
      intro y h
      cases y with
      | nil => simp [charListLt] at h
      | cons b bs => simp [charListLt]
  | cons a as ih =>
      intro y h
      cases y with
      | nil => simp [charListLt] at h
      | cons b bs =>
          simp only [charListLt] at h ⊢
          by_cases hab : a < b
          · simp [hab, lt_asymm hab]
          · by_cases hba : b < a
            · simp [hab, hba] at h
            · simp only [hab, hba, if_false] at h ⊢
              exact ih h

theorem charListLt_conn : ∀ {x y : List Char},
    charListLt x y = false → charListLt y x = false → x = y := by
  intro x
  induction x with
  | nil =>
      intro y h1 _
      cases y with
      | nil => rfl
      | cons b bs => simp [charListLt] at h1
  | cons a as ih =>
      intro y h1 h2
      cases y with
      | nil => simp [charListLt] at h2
      | cons b bs =>
          simp only [charListLt] at h1 h2
          by_cases hab : a < b
          · simp [hab] at h1
          · by_cases hba : b < a
            · simp [hba] at h2
            · have hh : a = b := le_antisymm (not_lt.mp hba) (not_lt.mp hab)
              subst hh
              simp only [lt_irrefl, if_false, if_neg (lt_irrefl a)] at h1 h2
              rw [ih h1 h2]

theorem strLt_asymm {a b : String} (h : strLt a b = true) : strLt b a = false :=
  charListLt_asymm h

theorem strLt_conn {a b : String} (h1 : strLt a b = false) (h2 : strLt b a = false) :
    a = b := by
  have hd : a.data = b.data := charListLt_conn h1 h2
  cases a
  cases b
  exact congrArg String.mk hd

theorem pairKey_comm (a b : String) : pairKey a b = pairKey b a := by
  unfold pairKey
  cases hba : strLt b a with
  | true => simp [hba, strLt_asymm hba]
  | false =>
      cases hab : strLt a b with
      | true => simp [hba, hab]
      | false =>
          have hh : a = b := strLt_conn hab hba
          subst hh
          rfl

theorem getRandomElement_mem {α : Type} {arr : List α} {r : Nat} {x : α}
    (h : getRandomElement arr r = some x) : x ∈ arr := by
  simp only [getRandomElement] at h
  exact List.getElem?_mem h

theorem getRandomInt_lower (σ : RandStream) (pos lo hi : Nat) :
    lo ≤ getRandomInt σ pos lo hi :=
  Nat.le_add_right lo _

/-- The mock standings carry exactly the roster's names, in roster order. -/
theorem generateMockTeams_names (σ : RandStream) :
    ∀ (teams : List String) (index pos : Nat),
      (generateMockTeams σ teams index pos).map (fun t => t.name) = teams := by
  intro teams
  induction teams with
  | nil => intro index pos; rfl
  | cons name rest ih => intro index pos; simp [generateMockTeams, ih]

/-- Every mock standing satisfies the wins/losses bookkeeping: games played is the
sum, the stored win percentage is the toFixed(3) value of the double quotient,
and at least ten games were generated. -/
theorem generateMockTeams_invariant (σ : RandStream) :
    ∀ (teams : List String) (index pos : Nat) (t : TeamStanding),
      t ∈ generateMockTeams σ teams index pos →
      t.wins + t.losses = t.gamesPlayed ∧
      t.winPctMilli = jsDivMilli t.wins (t.wins + t.losses) ∧
      0 < t.wins + t.losses := by
  intro teams
  induction teams with
  | nil => intro index pos t ht; simp [generateMockTeams] at ht
  | cons name rest ih =>
      intro index pos t ht
      simp only [generateMockTeams, List.mem_cons] at ht
      rcases ht with rfl | ht
      · refine ⟨rfl, rfl, ?_⟩
        have h5 : 5 ≤ getRandomInt σ pos 5 45 := getRandomInt_lower σ pos 5 45
        show 0 < getRandomInt σ pos 5 45 + getRandomInt σ (pos + 1) 5 45
        omega
      · exact ih (index + 1) (pos + 5) t ht

/-- What a successful draw guarantees: both teams come from the roster, the away
team survived the `t !== homeTeam` filter, and the sorted-pair key is fresh. -/
theorem drawPair_spec (σ : RandStream) (teams : List String) :
    ∀ (fuel pos : Nat) (used : List String) (h a : String) (p : Nat),
      drawPair σ teams used fuel pos = some (h, a, p) →
      h ∈ teams ∧ a ∈ teams ∧ a ≠ h ∧ pairKey h a ∉ used := by
  intro fuel
  induction fuel with
  | zero => intro pos used h a p hd; simp [drawPair] at hd
  | succ n ih =>
      intro pos used h a p hd
      rw [drawPair] at hd
      split at hd
      · exact absurd hd (by simp)
      · rename_i homeTeam hhome
        split at hd
        · exact absurd hd (by simp)
        · rename_i awayTeam haway
          split at hd
          · exact ih (pos + 2) used h a p hd
          · rename_i hfresh
            injection hd with hd
            injection hd with hd1 hd2
            injection hd2 with hd2 _
            subst hd1
            subst hd2
            have hmemf := List.mem_filter.mp (getRandomElement_mem haway)
            refine ⟨getRandomElement_mem hhome, hmemf.1, ?_, hfresh⟩
            have hne := hmemf.2
            simpa using hne

/-- Loop invariant of the game-generation loop: every produced game draws both
teams from the roster, has distinct home and away teams, names the winner by the
score comparison, and carries a pair key that is fresh relative to the `used` set
at loop entry; moreover the produced games have pairwise distinct pair keys. -/
theorem genGamesGo_spec (σ : RandStream) (teams : List String) (fuel : Nat) :
    ∀ (rem i pos : Nat) (used : List String) (games : List Game),
      genGamesGo σ teams fuel rem i pos used = some games →
      (∀ g ∈ games,
        g.homeTeam ∈ teams ∧ g.awayTeam ∈ teams ∧ g.awayTeam ≠ g.homeTeam ∧
        g.winner = (if g.awayScore < g.homeScore then g.homeTeam else g.awayTeam) ∧
        pairKey g.homeTeam g.awayTeam ∉ used) ∧
      games.Pairwise (fun g₁ g₂ =>
        pairKey g₁.homeTeam g₁.awayTeam ≠ pairKey g₂.homeTeam g₂.awayTeam) := by
  intro rem
  induction rem with
  | zero =>
      intro i pos used games hg
      rw [genGamesGo] at hg
      injection hg with hg
      subst hg
      simp
  | succ n ih =>
      intro i pos used games hg
      rw [genGamesGo] at hg
      cases hd : drawPair σ teams used fuel pos with
      | none => rw [hd] at hg; simp at hg
      | some triple =>
          obtain ⟨homeTeam, awayTeam, p2⟩ := triple
          rw [hd] at hg
          simp only [Option.map_eq_some'] at hg
          obtain ⟨rest, hrest, hcons⟩ := hg
          obtain ⟨hmem, hpairwise⟩ :=
            ih (i + 1) (p2 + 3) (pairKey homeTeam awayTeam :: used) rest hrest
          obtain ⟨hh, ha, hne, hfresh⟩ :=
            drawPair_spec σ teams fuel pos used homeTeam awayTeam p2 hd
          subst hcons
          constructor
          · intro g hgmem
            rcases List.mem_cons.mp hgmem with rfl | hgmem
            · exact ⟨hh, ha, hne, rfl, hfresh⟩
            · obtain ⟨m1, m2, m3, m4, m5⟩ := hmem g hgmem
              exact ⟨m1, m2, m3, m4, fun hk => m5 (List.mem_cons_of_mem _ hk)⟩
          · refine List.Pairwise.cons ?_ hpairwise
            intro g hgmem hkeyeq
            obtain ⟨_, _, _, _, m5⟩ := hmem g hgmem
            exact m5 (hkeyeq ▸ List.mem_cons_self _ _)

/-! Claim theorems. -/

/-- C1: with an API key configured, a rejected real-endpoint fetch (network error,
non-2xx status, or malformed body) is caught inside fetchStandings, which falls
back to mock generation and resolves with success=true and mock-sourced data; and
for every real-fetch outcome fetchStandings resolves (the error is never
propagated to the caller). -/
theorem claim_C1_fetchStandings_fallback (cfg : MSFConfig) (σ : RandStream)
    (league msg : String) (hcfg : isAPIConfigured cfg = true) :
    fetchStandings cfg σ (.error msg) league = .ok (mockStandingsResult σ league) ∧
    (mockStandingsResult σ league).success = true ∧
    (mockStandingsResult σ league).source = "Mock Data" ∧
    ∀ real : Except String RealStandingsResponse,
      ∃ r, fetchStandings cfg σ real league = .ok r ∧ r.success = true := by
  refine ⟨by simp [fetchStandings, hcfg], rfl, rfl, ?_⟩
  intro real
  cases real with
  | ok d =>
      exact ⟨{ success := true, data := transformStandings σ d.standings 0,
               league := jsToUpper league, source := "MySportsFeeds" },
             by simp [fetchStandings, hcfg], rfl⟩
  | error e =>
      exact ⟨mockStandingsResult σ league, by simp [fetchStandings, hcfg], rfl⟩

/-- A configured variant of the config, as a local development config.js would
provide. -/
def cfgWithKey : MSFConfig := { API_CONFIG_PUBLIC with apiKey := some "abc123" }

/-- C1 witness: concrete configured fetch whose real endpoint rejects. -/
theorem claim_C1_fetchStandings_fallback_witness :
    fetchStandings cfgWithKey rs0 (.error "network down") "nba" =
      .ok (mockStandingsResult rs0 "nba") ∧
    (mockStandingsResult rs0 "nba").success = true ∧
    (mockStandingsResult rs0 "nba").source = "Mock Data" ∧
    ∀ real : Except String RealStandingsResponse,
      ∃ r, fetchStandings cfgWithKey rs0 real "nba" = .ok r ∧ r.success = true :=
  claim_C1_fetchStandings_fallback cfgWithKey rs0 "nba" "network down" (by decide)

/-- C2: a loadData invocation that finds the loading flag set returns immediately
with no state change and no dispatched fetch; and the completion phase always
clears the loading flag, on success and on failure alike. -/
theorem claim_C2_loadData_guard (s : AppState) :
    (s.isLoading = true → loadDataStart s = (s, false)) ∧
    (∀ result : Except String AllData, (loadDataFinish s result).isLoading = false) := by
  constructor
  · intro h
    simp [loadDataStart, h]
  · intro result
    cases result <;> simp [loadDataFinish]

/-- A concrete state with a load in flight. -/
def loadingState : AppState :=
  { currentLeague := "nba", allData := none, isLoading := true,
    loadingShown := true, errorShown := false, errorMsg := "" }

/-- C2 witness: concrete in-flight state; second call is a no-op, and completion
of a failed fetch clears the flag. -/
theorem claim_C2_loadData_guard_witness :
    loadDataStart loadingState = (loadingState, false) ∧
    (loadDataFinish loadingState (.error "boom")).isLoading = false :=
  ⟨(claim_C2_loadData_guard loadingState).1 rfl,
   (claim_C2_loadData_guard loadingState).2 (.error "boom")⟩

/-- C3: fetchAllData rejects as a whole when any of the three sub-fetches
rejects, and when it resolves, all three sub-fetches resolved and the combined
record carries exactly their three data payloads (no partial dataset). -/
theorem claim_C3_fetchAllData_all_or_nothing (league : String)
    (s : Except String StandingsResult) (g : Except String GamesResult)
    (st : Except String StatsResult) :
    ((∃ e, s = .error e) ∨ (∃ e, g = .error e) ∨ (∃ e, st = .error e) →
      ∃ e, fetchAllData league s g st = .error e) ∧
    (∀ a, fetchAllData league s g st = .ok a →
      ∃ sr gr dr, s = .ok sr ∧ g = .ok gr ∧ st = .ok dr ∧
        a.standings = sr.data ∧ a.games = gr.data ∧ a.stats = dr.data ∧
        a.success = true) := by
  constructor
  · rintro (⟨e, rfl⟩ | ⟨e, rfl⟩ | ⟨e, rfl⟩)
    · exact ⟨e, rfl⟩
    · cases s with
      | ok sr => exact ⟨e, rfl⟩
      | error e2 => exact ⟨e2, rfl⟩
    · cases s with
      | ok sr =>
          cases g with
          | ok gr => exact ⟨e, rfl⟩
          | error e2 => exact ⟨e2, rfl⟩
      | error e2 => exact ⟨e2, rfl⟩
  · intro a ha
    cases s with
    | error e => exact absurd ha (by simp [fetchAllData])
    | ok sr =>
        cases g with
        | error e => exact absurd ha (by simp [fetchAllData])
        | ok gr =>
            cases st with
            | error e => exact absurd ha (by simp [fetchAllData])
            | ok dr =>
                injection ha with ha
                exact ⟨sr, gr, dr, rfl, rfl, rfl, by rw [← ha], by rw [← ha],
                  by rw [← ha], by rw [← ha]⟩

/-- A concrete resolved games result for the C3 witness. -/
def gamesOk : GamesResult :=
  { success := true, data := [], league := "NBA", source := "Mock Data" }

/-- A concrete resolved stats result for the C3 witness. -/
def statsOk : StatsResult :=
  { success := true
    data := { totalTeams := 12, gamesToday := 4, topScorer := "LeBron James",
              avgScore := 110 }
    league := "NBA" }

/-- C3 witness: one rejected sub-fetch makes the combined call reject. -/
theorem claim_C3_fetchAllData_all_or_nothing_witness :
    ∃ e, fetchAllData "nba" (.error "API Error: 500") (.ok gamesOk) (.ok statsOk) =
      .error e :=
  (claim_C3_fetchAllData_all_or_nothing "nba" (.error "API Error: 500")
      (.ok gamesOk) (.ok statsOk)).1 (Or.inl ⟨"API Error: 500", rfl⟩)

/-- Characterisation of the fueled floor-log2: when the fuel covers the input,
the result L satisfies 2^L ≤ n < 2^(L+1). -/
theorem log2fuel_spec : ∀ (fuel n : Nat), 0 < n → n ≤ fuel →
    2 ^ log2fuel fuel n ≤ n ∧ n < 2 ^ (log2fuel fuel n + 1) := by
  intro fuel
  induction fuel with
  | zero => intro n h1 h2; exact absurd h1 (by omega)
  | succ fl ih =>
      intro n h1 h2
      rw [log2fuel]
      by_cases hn : n ≤ 1
      · have hone : n = 1 := by omega
        subst hone
        norm_num
      · rw [if_neg hn]
        obtain ⟨hlo, hhi⟩ := ih (n / 2) (by omega) (by omega)
        have hp1 : (2:ℕ) ^ (log2fuel fl (n / 2) + 1) = 2 * 2 ^ log2fuel fl (n / 2) := by
          ring
        have hp2 : (2:ℕ) ^ (log2fuel fl (n / 2) + 1 + 1) =
            2 * 2 ^ (log2fuel fl (n / 2) + 1) := by ring
        omega

/-- natLog2 is the floor of log2 on positive inputs. -/
theorem natLog2_spec (n : Nat) (h : 0 < n) :
    2 ^ natLog2 n ≤ n ∧ n < 2 ^ (natLog2 n + 1) :=
  log2fuel_spec n n h le_rfl

/-- Half-unit accuracy of round-to-nearest: rne num den differs from the exact
quotient num/den by at most one half (stated multiplicatively over Nat). -/
theorem rne_spec (num den : Nat) (hden : 0 < den) :
    2 * rne num den * den ≤ 2 * num + den ∧
    2 * num ≤ 2 * rne num den * den + den := by
  obtain ⟨q, r, hr, rfl⟩ : ∃ q r, r < den ∧ num = den * q + r :=
    ⟨num / den, num % den, Nat.mod_lt num hden, (Nat.div_add_mod num den).symm⟩
  have hdiv : (den * q + r) / den = q := by
    rw [Nat.mul_add_div hden, Nat.div_eq_of_lt hr]
    rfl
  have hmod : (den * q + r) % den = r := by
    rw [Nat.mul_add_mod, Nat.mod_eq_of_lt hr]
  unfold rne
  rw [hdiv, hmod]
  split_ifs with h1 h2 h3 <;> constructor <;> nlinarith [hr]

/-- The double-quotient window: for 1 ≤ w ≤ 2^52 and 0 < t ≤ 2^53 the computed
significand is at most 2^53 (representable in 53 bits) and is within half a
unit of scale 2^-f of the exact quotient w/t. -/
theorem flDiv_spec (w t : Nat) (hw1 : 1 ≤ w) (hw : w ≤ 2 ^ 52) (ht : t ≤ 2 ^ 53)
    (htpos : 0 < t) :
    (flDiv w t).1 ≤ 2 ^ 53 ∧
    2 * (flDiv w t).1 * t ≤ 2 * (w * 2 ^ (flDiv w t).2) + t ∧
    2 * (w * 2 ^ (flDiv w t).2) ≤ 2 * (flDiv w t).1 * t + t := by
  simp only [flDiv]
  set B := natLog2 (w * 2 ^ 100 / t) with hB
  set f := 152 - B with hf
  have htle : t ≤ w * 2 ^ 100 := by
    calc t ≤ 2 ^ 53 := ht
      _ ≤ 2 ^ 100 := by norm_num
      _ ≤ w * 2 ^ 100 := Nat.le_mul_of_pos_left _ hw1
  have hq0pos : 0 < w * 2 ^ 100 / t := Nat.div_pos htle htpos
  obtain ⟨hBlo, hBhi⟩ := natLog2_spec (w * 2 ^ 100 / t) hq0pos
  have hq0le : w * 2 ^ 100 / t ≤ 2 ^ 152 := by
    calc w * 2 ^ 100 / t ≤ w * 2 ^ 100 := Nat.div_le_self _ _
      _ ≤ 2 ^ 52 * 2 ^ 100 := Nat.mul_le_mul_right _ hw
      _ = 2 ^ 152 := by norm_num
  have hB152 : B ≤ 152 := by
    by_contra hB153
    push_neg at hB153
    have hij : (2:ℕ) ^ 153 ≤ 2 ^ B := Nat.pow_le_pow_right (by norm_num) (by omega)
    have hcontra : (2:ℕ) ^ 153 ≤ 2 ^ 152 :=
      le_trans hij (le_trans hBlo hq0le)
    norm_num at hcontra
  have hdm : t * (w * 2 ^ 100 / t) + (w * 2 ^ 100) % t = w * 2 ^ 100 :=
    Nat.div_add_mod _ _
  have hmod : (w * 2 ^ 100) % t < t := Nat.mod_lt _ htpos
  have hup : w * 2 ^ 100 < t * 2 ^ (B + 1) := by
    have hqs : w * 2 ^ 100 / t + 1 ≤ 2 ^ (B + 1) := hBhi
    calc w * 2 ^ 100 = t * (w * 2 ^ 100 / t) + (w * 2 ^ 100) % t := hdm.symm
      _ < t * (w * 2 ^ 100 / t) + t := Nat.add_lt_add_left hmod _
      _ = t * (w * 2 ^ 100 / t + 1) := by ring
      _ ≤ t * 2 ^ (B + 1) := Nat.mul_le_mul_left t hqs
  have hfB : f + B = 152 := by omega
  have hkey : w * 2 ^ f < 2 ^ 53 * t := by
    have e1 : w * 2 ^ f * 2 ^ B = w * 2 ^ 100 * 2 ^ 52 := by
      rw [mul_assoc, ← pow_add, hfB]
      ring
    have e2 : (2:ℕ) ^ 53 * t * 2 ^ B = t * 2 ^ (B + 1) * 2 ^ 52 := by
      rw [pow_succ]
      ring
    have hmul : w * 2 ^ f * 2 ^ B < 2 ^ 53 * t * 2 ^ B := by
      calc w * 2 ^ f * 2 ^ B = w * 2 ^ 100 * 2 ^ 52 := e1
        _ < t * 2 ^ (B + 1) * 2 ^ 52 := mul_lt_mul_of_pos_right hup (by positivity)
        _ = 2 ^ 53 * t * 2 ^ B := e2.symm
    exact lt_of_mul_lt_mul_right hmul (Nat.zero_le _)
  have hqlt : w * 2 ^ f / t < 2 ^ 53 := by
    rw [Nat.div_lt_iff_lt_mul htpos]
    exact hkey
  have hrle : rne (w * 2 ^ f) t ≤ w * 2 ^ f / t + 1 := by
    unfold rne
    split_ifs <;> omega
  exact ⟨by omega, (rne_spec (w * 2 ^ f) t htpos).1, (rne_spec (w * 2 ^ f) t htpos).2⟩

/-- The characterisation of round-half-up performed by a floor division. -/
theorem halfUpDiv_bounds (a d : Nat) (hd : 0 < d) :
    2 * ((a + d) / (2 * d)) * d ≤ a + d ∧
    a + d < (2 * ((a + d) / (2 * d)) + 2) * d := by
  have hdm : 2 * d * ((a + d) / (2 * d)) + (a + d) % (2 * d) = a + d :=
    Nat.div_add_mod _ _
  have hmod : (a + d) % (2 * d) < 2 * d := Nat.mod_lt _ (by omega)
  constructor
  · calc 2 * ((a + d) / (2 * d)) * d = 2 * d * ((a + d) / (2 * d)) := by ring
      _ ≤ a + d := Nat.le.intro hdm
  · calc a + d = 2 * d * ((a + d) / (2 * d)) + (a + d) % (2 * d) := hdm.symm
      _ < 2 * d * ((a + d) / (2 * d)) + 2 * d := Nat.add_lt_add_left hmod _
      _ = (2 * ((a + d) / (2 * d)) + 2) * d := by ring

/-- Full characterisation of jsDivMilli on the representable range: the printed
thousandths value is the half-up rounding of 1000·m/2^f for a significand
m ≤ 2^53 within half a scale unit of the exact quotient w/t (i.e. of the
correctly rounded binary64 quotient). -/
theorem jsDivMilli_spec (w t : Nat) (hw : w ≤ 2 ^ 52) (ht : t ≤ 2 ^ 53)
    (htpos : 0 < t) :
    ∃ m f : ℕ, m ≤ 2 ^ 53 ∧
      2 * m * t ≤ 2 * (w * 2 ^ f) + t ∧
      2 * (w * 2 ^ f) ≤ 2 * m * t + t ∧
      2 * jsDivMilli w t * 2 ^ f ≤ 2000 * m + 2 ^ f ∧
      2000 * m + 2 ^ f < (2 * jsDivMilli w t + 2) * 2 ^ f := by
  by_cases hw0 : w = 0
  · subst hw0
    have h0 : jsDivMilli 0 t = 0 := by simp [jsDivMilli]
    refine ⟨0, 0, by norm_num, by omega, by omega, ?_, ?_⟩
    · rw [h0]; norm_num
    · rw [h0]; norm_num
  · obtain ⟨hm53, hA, hB2⟩ := flDiv_spec w t (Nat.pos_of_ne_zero hw0) hw ht htpos
    have hd : (0:ℕ) < 2 ^ (flDiv w t).2 := pow_pos (by norm_num) _
    have hps : (2:ℕ) ^ ((flDiv w t).2 + 1) = 2 * 2 ^ (flDiv w t).2 := by
      rw [pow_succ]
      ring
    have hn : jsDivMilli w t =
        (2000 * (flDiv w t).1 + 2 ^ (flDiv w t).2) / (2 * 2 ^ (flDiv w t).2) := by
      simp only [jsDivMilli, hw0, if_false, hps]
    have hpair := halfUpDiv_bounds (2000 * (flDiv w t).1) (2 ^ (flDiv w t).2) hd
    refine ⟨(flDiv w t).1, (flDiv w t).2, hm53, hA, hB2, ?_, ?_⟩
    · rw [hn]
      exact hpair.1
    · rw [hn]
      exact hpair.2

set_option maxRecDepth 8000 in
/-- Faithfulness probe at the exact decimal tie 39/80 = 0.4875: the nearest
double lies strictly below the tie, so toFixed(3) prints 0.487 (exact-rational
half-up rounding would print 0.488). -/
theorem jsDivMilli_tie_probe :
    jsDivMilli 39 80 = 487 ∧ calculateWinPercentage 39 41 = "0.487" := by
  constructor
  · decide
  · decide

/-- C4: with zero total games the win percentage is the string "0.000"; with a
positive total it is `fmt3 n` where n is the toFixed(3) thousandths of the
DOUBLE quotient: there are m ≤ 2^53 and a binary scale f such that m/2^f is
within half a scale unit of wins/(wins+losses) (the correctly rounded binary64
quotient) and n is the round-half-up of 1000·m/2^f (ECMA-262 toFixed, larger n
on ties).  The 2^52 bound keeps the inputs and their sum exactly representable
JS integers in the double's normal range. -/
theorem claim_C4_win_percentage (wins losses : Nat)
    (hw : wins ≤ 2 ^ 52) (hl : losses ≤ 2 ^ 52) :
    (wins + losses = 0 → calculateWinPercentage wins losses = "0.000") ∧
    (0 < wins + losses →
      ∃ n m f : ℕ,
        calculateWinPercentage wins losses = fmt3 n ∧
        n = jsDivMilli wins (wins + losses) ∧
        m ≤ 2 ^ 53 ∧
        2 * m * (wins + losses) ≤ 2 * (wins * 2 ^ f) + (wins + losses) ∧
        2 * (wins * 2 ^ f) ≤ 2 * m * (wins + losses) + (wins + losses) ∧
        2 * n * 2 ^ f ≤ 2000 * m + 2 ^ f ∧
        2000 * m + 2 ^ f < (2 * n + 2) * 2 ^ f) := by
  constructor
  · intro h
    simp [calculateWinPercentage, h]
  · intro hpos
    have ht53 : wins + losses ≤ 2 ^ 53 := by
      have hp : (2:ℕ) ^ 53 = 2 ^ 52 + 2 ^ 52 := by norm_num
      omega
    obtain ⟨m, f, hm, h1, h2, h3, h4⟩ :=
      jsDivMilli_spec wins (wins + losses) hw ht53 hpos
    refine ⟨jsDivMilli wins (wins + losses), m, f, ?_, rfl, hm, h1, h2, h3, h4⟩
    simp [calculateWinPercentage, Nat.pos_iff_ne_zero.mp hpos]

/-- C4 witness: the zero-total input, and the decimal-tie input 39/41 on which
the double quotient decides the printed digit. -/
theorem claim_C4_win_percentage_witness :
    calculateWinPercentage 0 0 = "0.000" ∧
    ∃ n m f : ℕ,
      calculateWinPercentage 39 41 = fmt3 n ∧
      n = jsDivMilli 39 (39 + 41) ∧
      m ≤ 2 ^ 53 ∧
      2 * m * (39 + 41) ≤ 2 * (39 * 2 ^ f) + (39 + 41) ∧
      2 * (39 * 2 ^ f) ≤ 2 * m * (39 + 41) + (39 + 41) ∧
      2 * n * 2 ^ f ≤ 2000 * m + 2 ^ f ∧
      2000 * m + 2 ^ f < (2 * n + 2) * 2 ^ f :=
  ⟨(claim_C4_win_percentage 0 0 (by norm_num) (by norm_num)).1 rfl,
   (claim_C4_win_percentage 39 41 (by norm_num) (by norm_num)).2 (by norm_num)⟩

/-- Decidable check of the claimed standings invariant on a fetchStandings result:
every record has wins + losses = gamesPlayed and a win percentage exactly equal to
wins/(wins+losses) (stated multiplicatively in thousandths), zero when no games. -/
def standingsInvariantHolds (r : Except String StandingsResult) : Bool :=
  match r with
  | .ok res =>
      res.data.all (fun t =>
        (t.wins + t.losses == t.gamesPlayed) &&
        (1000 * t.wins == t.winPctMilli * (t.wins + t.losses)) &&
        (!(t.wins + t.losses == 0) || (t.winPctMilli == 0)))
  | .error _ => true

/-- A well-formed real-endpoint response whose `gamesPlayed` disagrees with
wins + losses (perfectly possible for a real feed: ties, suspended games). -/
def badStandingsResponse : RealStandingsResponse :=
  { standings := [{ teamId := 7, abbreviation := "SPR", city := "Springfield",
                    wins := 1, losses := 2, streak := "W1", pointsFor := 100,
                    gamesPlayed := 99 }] }

set_option maxRecDepth 8000 in
/-- C5 counterexample: on the real-endpoint transform path the produced record has
wins = 1, losses = 2 but gamesPlayed = 99 (taken from the response), and its
winPct is the rounded 0.333, not the exact ratio 1/3 — the claimed invariant
fails on a record produced by fetchStandings. -/
theorem claim_C5_counterexample :
    standingsInvariantHolds
      (fetchStandings cfgWithKey rs0 (.ok badStandingsResponse) "nba") = false := by
  decide

/-- C5 amended: mock-generated records always satisfy
wins + losses = gamesPlayed, with winPct the stored toFixed(3) value of the
double quotient wins/(wins+losses) (jsDivMilli); real-transform records have
winPct equal to the toFixed(3) value of the response's double quotient (zero
when both wins and losses are zero), and satisfy wins + losses = gamesPlayed
whenever the response carries no (or a zero) gamesPlayed field — but
gamesPlayed is copied from the response when nonzero. -/
theorem claim_C5_amended_invariant :
    (∀ (σ : RandStream) (teams : List String) (index pos : Nat) (t : TeamStanding),
        t ∈ generateMockTeams σ teams index pos →
        t.wins + t.losses = t.gamesPlayed ∧
        t.winPctMilli = jsDivMilli t.wins (t.wins + t.losses)) ∧
    (∀ (σ : RandStream) (pos : Nat) (s : RealStanding),
        ((transformStanding σ pos s).wins + (transformStanding σ pos s).losses = 0 →
          (transformStanding σ pos s).winPctMilli = 0) ∧
        (0 < (transformStanding σ pos s).wins + (transformStanding σ pos s).losses →
          (transformStanding σ pos s).winPctMilli =
            jsDivMilli (transformStanding σ pos s).wins
              ((transformStanding σ pos s).wins + (transformStanding σ pos s).losses)) ∧
        (s.gamesPlayed = 0 →
          (transformStanding σ pos s).wins + (transformStanding σ pos s).losses =
            (transformStanding σ pos s).gamesPlayed)) := by
  constructor
  · intro σ teams index pos t ht
    obtain ⟨h1, h2, _⟩ := generateMockTeams_invariant σ teams index pos t ht
    exact ⟨h1, h2⟩
  · intro σ pos s
    refine ⟨?_, ?_, ?_⟩
    · intro h0
      have hz : s.wins + s.losses = 0 := h0
      simp [transformStanding, hz]
    · intro hpos
      have hz : s.wins + s.losses ≠ 0 := Nat.pos_iff_ne_zero.mp hpos
      simp [transformStanding, hz]
    · intro h0
      simp [transformStanding, h0]

/-- The first standing generated from the NBA roster under the rs0 draws. -/
def t0mock : TeamStanding :=
  { id := 1, name := "Lakers", wins := 5, losses := 6, winPctMilli := 455,
    streak := "L3", points := 84, gamesPlayed := 11 }

/-- A response entry with no gamesPlayed field. -/
def entryNoGames : RealStanding :=
  { teamId := 1, abbreviation := "AAA", city := "Anytown", wins := 3, losses := 4,
    streak := "W2", pointsFor := 0, gamesPlayed := 0 }

set_option maxRecDepth 8000 in
/-- C5 amended witness: the invariant on a concrete mock record and on a concrete
real-path record without a gamesPlayed field. -/
theorem claim_C5_amended_invariant_witness :
    t0mock.wins + t0mock.losses = t0mock.gamesPlayed ∧
    (transformStanding rs0 0 entryNoGames).wins +
        (transformStanding rs0 0 entryNoGames).losses =
      (transformStanding rs0 0 entryNoGames).gamesPlayed :=
  ⟨(claim_C5_amended_invariant.1 rs0 NBA_TEAMS 0 0 t0mock (by decide)).1,
   (claim_C5_amended_invariant.2 rs0 0 entryNoGames).2.2 rfl⟩

/-- C6: whenever generateMockGames returns a result, no two games in it share the
same unordered home/away pairing; uniqueness is witnessed by the canonical
sorted-pair keys, which are pairwise distinct. -/
theorem claim_C6_unique_pairings (σ : RandStream) (teams : List String)
    (count fuel : Nat) (games : List Game)
    (h : generateMockGames σ teams count fuel = some games) :
    games.Pairwise (fun g₁ g₂ =>
      ¬((g₁.homeTeam = g₂.homeTeam ∧ g₁.awayTeam = g₂.awayTeam) ∨
        (g₁.homeTeam = g₂.awayTeam ∧ g₁.awayTeam = g₂.homeTeam))) ∧
    games.Pairwise (fun g₁ g₂ =>
      pairKey g₁.homeTeam g₁.awayTeam ≠ pairKey g₂.homeTeam g₂.awayTeam) := by
  obtain ⟨-, hpw⟩ := genGamesGo_spec σ teams fuel count 0 0 [] games h
  refine ⟨List.Pairwise.imp ?_ hpw, hpw⟩
  intro g₁ g₂ hne hsame
  apply hne
  rcases hsame with ⟨h1, h2⟩ | ⟨h1, h2⟩
  · rw [h1, h2]
  · rw [h1, h2, pairKey_comm]

/-- C6 witness: a concrete completed run of the generator at count 6 over the NBA
roster, with pairwise distinct unordered pairings. -/
theorem claim_C6_unique_pairings_witness :
    ∃ games, generateMockGames rs0 NBA_TEAMS 6 20 = some games ∧
      games.Pairwise (fun g₁ g₂ =>
        ¬((g₁.homeTeam = g₂.homeTeam ∧ g₁.awayTeam = g₂.awayTeam) ∨
          (g₁.homeTeam = g₂.awayTeam ∧ g₁.awayTeam = g₂.homeTeam))) := by
  cases hg : generateMockGames rs0 NBA_TEAMS 6 20 with
  | none => exact absurd hg (by decide)
  | some games =>
      exact ⟨games, rfl, (claim_C6_unique_pairings rs0 NBA_TEAMS 6 20 games hg).1⟩

/-- C8: any league whose lower-cased form is none of nba/nfl/mlb/epl — including
nhl, which the public configuration lists as a supported league — makes the mock
paths fall through to the NBA roster: fetchStandings resolves with standings
named exactly by NBA_TEAMS, and every fetchRecentGames mock game draws both its
teams from NBA_TEAMS. -/
theorem claim_C8_unknown_league_defaults_to_nba (league : String) (σ : RandStream)
    (h : jsToLower league ∉ (["nba", "nfl", "mlb", "epl"] : List String)) :
    selectTeams league = NBA_TEAMS ∧
    ("NHL", "nhl") ∈ API_CONFIG_PUBLIC.leagues ∧
    (∀ real, fetchStandings API_CONFIG_PUBLIC σ real league =
        .ok (mockStandingsResult σ league)) ∧
    (mockStandingsResult σ league).data.map (fun t => t.name) = NBA_TEAMS ∧
    (∀ real fuel r,
        fetchRecentGames API_CONFIG_PUBLIC σ real league fuel = some (.ok r) →
        ∀ g ∈ r.data, g.homeTeam ∈ NBA_TEAMS ∧ g.awayTeam ∈ NBA_TEAMS) := by
  have h1 : jsToLower league ≠ "nba" := fun e => h (by simp [e])
  have h2 : jsToLower league ≠ "nfl" := fun e => h (by simp [e])
  have h3 : jsToLower league ≠ "mlb" := fun e => h (by simp [e])
  have h4 : jsToLower league ≠ "epl" := fun e => h (by simp [e])
  have hsel : selectTeams league = NBA_TEAMS := by
    simp [selectTeams, h1, h2, h3, h4]
  have hcfg : isAPIConfigured API_CONFIG_PUBLIC = false := rfl
  refine ⟨hsel, by decide, ?_, ?_, ?_⟩
  · intro real
    cases real with
    | ok d => simp [fetchStandings, hcfg]
    | error e => simp [fetchStandings, hcfg]
  · simp [mockStandingsResult, hsel, generateMockTeams_names]
  · intro real fuel r hr g hgmem
    simp only [fetchRecentGames, hcfg, Bool.false_eq_true, if_false] at hr
    rw [Option.map_eq_some'] at hr
    obtain ⟨gs, hgs, hfr⟩ := hr
    injection hfr with hfr
    rw [generateMockGames, hsel] at hgs
    obtain ⟨hmem, -⟩ := genGamesGo_spec σ NBA_TEAMS fuel 6 0 0 [] gs hgs
    have hgdata : r.data = gs := by rw [← hfr]
    rw [hgdata] at hgmem
    obtain ⟨m1, m2, -, -, -⟩ := hmem g hgmem
    exact ⟨m1, m2⟩

/-- C8 witness: the concrete league "nhl". -/
theorem claim_C8_unknown_league_defaults_to_nba_witness :
    selectTeams "nhl" = NBA_TEAMS ∧
    ("NHL", "nhl") ∈ API_CONFIG_PUBLIC.leagues ∧
    (∀ real, fetchStandings API_CONFIG_PUBLIC rs0 real "nhl" =
        .ok (mockStandingsResult rs0 "nhl")) ∧
    (mockStandingsResult rs0 "nhl").data.map (fun t => t.name) = NBA_TEAMS ∧
    (∀ real fuel r,
        fetchRecentGames API_CONFIG_PUBLIC rs0 real "nhl" fuel = some (.ok r) →
        ∀ g ∈ r.data, g.homeTeam ∈ NBA_TEAMS ∧ g.awayTeam ∈ NBA_TEAMS) :=
  claim_C8_unknown_league_defaults_to_nba "nhl" rs0 (by decide)

/-- C9: in every game a completed generator run produces, a tie is written with
the away team as winner; the winner is the home team exactly when the home score
is strictly larger, and is always one of the two teams. -/
theorem claim_C9_tie_goes_to_away (σ : RandStream) (teams : List String)
    (count fuel : Nat) (games : List Game)
    (h : generateMockGames σ teams count fuel = some games) :
    ∀ g ∈ games,
      (g.homeScore = g.awayScore → g.winner = g.awayTeam) ∧
      (g.winner = g.homeTeam ↔ g.awayScore < g.homeScore) ∧
      (g.winner = g.homeTeam ∨ g.winner = g.awayTeam) := by
  intro g hg
  obtain ⟨hmem, -⟩ := genGamesGo_spec σ teams fuel count 0 0 [] games h
  obtain ⟨-, -, hne, hwin, -⟩ := hmem g hg
  refine ⟨?_, ⟨?_, ?_⟩, ?_⟩
  · intro heq
    rw [hwin, if_neg (by omega)]
  · intro hwh
    by_contra hlt
    rw [hwin, if_neg hlt] at hwh
    exact hne hwh
  · intro hlt
    rw [hwin, if_pos hlt]
  · rw [hwin]
    by_cases hlt : g.awayScore < g.homeScore
    · exact Or.inl (if_pos hlt)
    · exact Or.inr (if_neg hlt)

/-- C9 witness: a concrete completed run over the MLB roster. -/
theorem claim_C9_tie_goes_to_away_witness :
    ∃ games, generateMockGames rs0 MLB_TEAMS 6 20 = some games ∧
      ∀ g ∈ games, g.winner = g.homeTeam ∨ g.winner = g.awayTeam := by
  cases hg : generateMockGames rs0 MLB_TEAMS 6 20 with
  | none => exact absurd hg (by decide)
  | some games =>
      exact ⟨games, rfl, fun g hgm =>
        (claim_C9_tie_goes_to_away rs0 MLB_TEAMS 6 20 games hg g hgm).2.2⟩

/-- C10: the retry loop can never exhaust fresh pairs — whenever strictly fewer
keys are used than there are distinct available pair keys, a fresh
distinct-team pairing exists — and concretely the generation of the default six
games completes over each fixed 12-team roster. -/
theorem claim_C10_retry_loop_has_fresh_pairs :
    (∀ (teams used K : List String), K.Nodup →
        (∀ k ∈ K, ∃ h a, h ∈ teams ∧ a ∈ teams ∧ a ≠ h ∧ k = pairKey h a) →
        used.length < K.length →
        ∃ h a, h ∈ teams ∧ a ∈ teams ∧ a ≠ h ∧ pairKey h a ∉ used) ∧
    (generateMockGames rs0 NBA_TEAMS 6 20).map List.length = some 6 ∧
    (generateMockGames rs0 NFL_TEAMS 6 20).map List.length = some 6 ∧
    (generateMockGames rs0 MLB_TEAMS 6 20).map List.length = some 6 ∧
    (generateMockGames rs0 EPL_TEAMS 6 20).map List.length = some 6 := by
  refine ⟨?_, by decide, by decide, by decide, by decide⟩
  intro teams used K hnodup hkeys hlen
  by_contra hnone
  push_neg at hnone
  have hsub : K.toFinset ⊆ used.toFinset := by
    intro k hk
    rw [List.mem_toFinset] at hk ⊢
    obtain ⟨hh, aa, hmemh, hmema, hne, rfl⟩ := hkeys k hk
    exact hnone hh aa hmemh hmema hne
  have hcard : K.length ≤ used.length :=
    calc K.length = K.toFinset.card := (List.toFinset_card_of_nodup hnodup).symm
      _ ≤ used.toFinset.card := Finset.card_le_card hsub
      _ ≤ used.length := List.toFinset_card_le used
  omega

/-- C10 witness: three teams, three available pair keys, one used slot. -/
theorem claim_C10_retry_loop_has_fresh_pairs_witness :
    ∃ h a, h ∈ (["x", "y", "z"] : List String) ∧ a ∈ (["x", "y", "z"] : List String) ∧
      a ≠ h ∧ pairKey h a ∉ (["x-y"] : List String) :=
  claim_C10_retry_loop_has_fresh_pairs.1 ["x", "y", "z"] ["x-y"]
    ["x-y", "x-z", "y-z"]
    (by decide)
    (by
      intro k hk
      simp only [List.mem_cons, List.not_mem_nil, or_false] at hk
      rcases hk with rfl | rfl | rfl
      · exact ⟨"x", "y", by decide, by decide, by decide, by decide⟩
      · exact ⟨"x", "z", by decide, by decide, by decide, by decide⟩
      · exact ⟨"y", "z", by decide, by decide, by decide, by decide⟩)
    (by decide)

/-- C7: on a list whose property values are pairwise distinct, sorting
descending yields exactly the reverse of sorting ascending. -/
theorem claim_C7_sort_descending_is_reverse {α β : Type} [LinearOrder β]
    (array : List α) (property : α → β)
    (h : array.Pairwise (fun a b => property a ≠ property b)) :
    sortByProperty array property false =
      (sortByProperty array property true).reverse := by
  have htransA : ∀ a b c : α, decide (property a ≤ property b) = true →
      decide (property b ≤ property c) = true →
      decide (property a ≤ property c) = true := by
    intro a b c h1 h2
    rw [decide_eq_true_eq] at h1 h2 ⊢
    exact le_trans h1 h2
  have htotalA : ∀ a b : α, (decide (property a ≤ property b) ||
      decide (property b ≤ property a)) = true := by
    intro a b
    simpa [Bool.or_eq_true, decide_eq_true_eq] using le_total (property a) (property b)
  have htransD : ∀ a b c : α, decide (property b ≤ property a) = true →
      decide (property c ≤ property b) = true →
      decide (property c ≤ property a) = true := by
    intro a b c h1 h2
    rw [decide_eq_true_eq] at h1 h2 ⊢
    exact le_trans h2 h1
  have htotalD : ∀ a b : α, (decide (property b ≤ property a) ||
      decide (property a ≤ property b)) = true := by
    intro a b
    simpa [Bool.or_eq_true, decide_eq_true_eq] using (le_total (property b) (property a))
  have hsortA := List.sorted_mergeSort htransA htotalA array
  have hsortD := List.sorted_mergeSort htransD htotalD array
  have hsAsc : (array.mergeSort (fun a b : α => decide (property a ≤ property b))).Pairwise
      (fun a b => property a ≤ property b) :=
    List.Pairwise.imp (fun hab => decide_eq_true_eq.mp hab) hsortA
  have hsDesc : (array.mergeSort (fun a b : α => decide (property b ≤ property a))).Pairwise
      (fun a b => property b ≤ property a) :=
    List.Pairwise.imp (fun hab => decide_eq_true_eq.mp hab) hsortD
  have hdistDesc : (array.mergeSort (fun a b : α => decide (property b ≤ property a))).Pairwise
      (fun a b => property a ≠ property b) :=
    (List.Perm.pairwise_iff (fun hxy => Ne.symm hxy)
      (List.mergeSort_perm array (fun a b : α => decide (property b ≤ property a)))).mpr h
  have hdistAsc : (array.mergeSort (fun a b : α => decide (property a ≤ property b))).Pairwise
      (fun a b => property a ≠ property b) :=
    (List.Perm.pairwise_iff (fun hxy => Ne.symm hxy)
      (List.mergeSort_perm array (fun a b : α => decide (property a ≤ property b)))).mpr h
  have hdistAscRev :
      ((array.mergeSort (fun a b : α => decide (property a ≤ property b))).reverse).Pairwise
        (fun a b => property a ≠ property b) :=
    List.pairwise_reverse.mpr (List.Pairwise.imp (fun hab => Ne.symm hab) hdistAsc)
  have hsAscRev :
      ((array.mergeSort (fun a b : α => decide (property a ≤ property b))).reverse).Pairwise
        (fun a b => property b ≤ property a) :=
    List.pairwise_reverse.mpr hsAsc
  have hstrictD : (array.mergeSort (fun a b : α => decide (property b ≤ property a))).Pairwise
      (fun a b => property b < property a) :=
    List.Pairwise.imp (fun hab => lt_of_le_of_ne hab.1 (Ne.symm hab.2))
      (hsDesc.and hdistDesc)
  have hstrictAR :
      ((array.mergeSort (fun a b : α => decide (property a ≤ property b))).reverse).Pairwise
        (fun a b => property b < property a) :=
    List.Pairwise.imp (fun hab => lt_of_le_of_ne hab.1 (Ne.symm hab.2))
      (hsAscRev.and hdistAscRev)
  have hperm : List.Perm
      (array.mergeSort (fun a b : α => decide (property b ≤ property a)))
      ((array.mergeSort (fun a b : α => decide (property a ≤ property b))).reverse) :=
    (List.mergeSort_perm array _).trans
      ((List.mergeSort_perm array _).symm.trans
        ((array.mergeSort (fun a b : α => decide (property a ≤ property b))).reverse_perm).symm)
  haveI : IsAntisymm α (fun a b => property b < property a) :=
    ⟨fun a b h1 h2 => absurd h2 (lt_asymm h1)⟩
  show array.mergeSort (fun a b : α => decide (property b ≤ property a)) =
      (array.mergeSort (fun a b : α => decide (property a ≤ property b))).reverse
  exact List.eq_of_perm_of_sorted hperm hstrictD hstrictAR

/-- C7 witness: two concrete standings with distinct win percentages, sorted by
the winPct field as renderStandings does. -/
def tsA : TeamStanding :=
  { id := 1, name := "Lakers", wins := 10, losses := 5, winPctMilli := 667,
    streak := "W2", points := 100, gamesPlayed := 15 }

/-- A second concrete standing with a different win percentage. -/
def tsB : TeamStanding :=
  { id := 2, name := "Celtics", wins := 5, losses := 10, winPctMilli := 333,
    streak := "L1", points := 90, gamesPlayed := 15 }

theorem claim_C7_sort_descending_is_reverse_witness :
    sortByProperty [tsA, tsB] (fun t => t.winPctMilli) false =
      (sortByProperty [tsA, tsB] (fun t => t.winPctMilli) true).reverse :=
  claim_C7_sort_descending_is_reverse [tsA, tsB] (fun t => t.winPctMilli) (by decide)

end Dashboard
